import Mathlib

/-!
Shallow embedding of the emulator core of this repository
(src/core/src/gameboy.rs and src/core/src/sound_controller.rs), with
theorems checking the natural-language specification against it.

Machine integers (u8/u16/u64) are modelled as `Nat`; every masking,
shifting and wrapping operation of the source is reproduced explicitly
(`&&& 0xFF`, `% 8`, ...).  Subtractions in the source are either guarded
by the source itself or reproduced as truncated `Nat` subtraction at the
same spot.  Rust panics (`unreachable!()`, `Option::expect`) are
modelled by `Option`: a `none` result is a panic.
-/

/-- Modelled from the spec: `crate::consts::CLOCK_SPEED` is not under src/.
The master clock frequency of the system, 4194304 T-cycles per second
(spec sections 4.C and glossary). -/
def CLOCK_SPEED : Nat := 4194304

/-- Wave duty patterns, from `WAVE_DUTY_TABLE` in sound_controller.rs. -/
def WAVE_DUTY_TABLE : Nat → Nat
  | 0 => 0x01
  | 1 => 0x03
  | 2 => 0x0F
  | _ => 0xFC

/-- The APU state, mirroring `struct SoundController` in
src/core/src/sound_controller.rs field by field.  The 16-byte wave RAM
is a function from index to byte; the output sample queue is a list. -/
structure SoundController where
  nr10 : Nat
  nr11 : Nat
  nr12 : Nat
  nr13 : Nat
  nr14 : Nat
  nr21 : Nat
  nr22 : Nat
  nr23 : Nat
  nr24 : Nat
  nr30 : Nat
  nr31 : Nat
  nr32 : Nat
  nr33 : Nat
  nr34 : Nat
  ch3_wave_pattern : Nat → Nat
  nr41 : Nat
  nr42 : Nat
  nr43 : Nat
  nr44 : Nat
  nr50 : Nat
  nr51 : Nat
  nr52 : Nat
  on_flag : Bool
  ch1_channel_enable : Bool
  ch1_length_timer : Nat
  ch1_sweep_enabled : Bool
  ch1_shadow_freq : Nat
  ch1_sweep_timer : Nat
  ch1_frequency_timer : Nat
  ch1_wave_duty_position : Nat
  ch1_current_volume : Nat
  ch1_env_period_timer : Nat
  ch2_channel_enable : Bool
  ch2_length_timer : Nat
  ch2_frequency_timer : Nat
  ch2_wave_duty_position : Nat
  ch2_current_volume : Nat
  ch2_env_period_timer : Nat
  ch3_channel_enable : Bool
  ch3_length_timer : Nat
  ch3_frequency_timer : Nat
  ch3_wave_position : Nat
  output : List Nat
  last_clock : Nat
  sample_frequency : Nat
  sample_mod : Nat

/-- The `Default` impl of `SoundController` in sound_controller.rs:
everything zeroed, `on = false`, `sample_frequency = 48_000`. -/
def SoundController.default : SoundController where
  nr10 := 0
  nr11 := 0
  nr12 := 0
  nr13 := 0
  nr14 := 0
  nr21 := 0
  nr22 := 0
  nr23 := 0
  nr24 := 0
  nr30 := 0
  nr31 := 0
  nr32 := 0
  nr33 := 0
  nr34 := 0
  ch3_wave_pattern := fun _ => 0
  nr41 := 0
  nr42 := 0
  nr43 := 0
  nr44 := 0
  nr50 := 0
  nr51 := 0
  nr52 := 0
  on_flag := false
  ch1_channel_enable := false
  ch1_length_timer := 0
  ch1_sweep_enabled := false
  ch1_shadow_freq := 0
  ch1_sweep_timer := 0
  ch1_frequency_timer := 0
  ch1_wave_duty_position := 0
  ch1_current_volume := 0
  ch1_env_period_timer := 0
  ch2_channel_enable := false
  ch2_length_timer := 0
  ch2_frequency_timer := 0
  ch2_wave_duty_position := 0
  ch2_current_volume := 0
  ch2_env_period_timer := 0
  ch3_channel_enable := false
  ch3_length_timer := 0
  ch3_frequency_timer := 0
  ch3_wave_position := 0
  output := []
  last_clock := 0
  sample_frequency := 48000
  sample_mod := 0

/-- `SoundController::calculate_frequency`: computes the sweep's new
frequency from the shadow frequency, and clears `ch1_sweep_enabled` when
the result overflows past 2047.  Returns the new frequency together
with the (possibly) updated state. -/
def SoundController.calculate_frequency (s : SoundController)
    (ch1_sweep_shift : Nat) (is_downwards : Bool) : Nat × SoundController :=
  let new_freq := s.ch1_shadow_freq >>> ch1_sweep_shift
  let new_freq := if is_downwards then s.ch1_shadow_freq - new_freq
                  else s.ch1_shadow_freq + new_freq
  if new_freq ≥ 2048 then (new_freq, { s with ch1_sweep_enabled := false })
  else (new_freq, s)

/-- The `env` helper inside `SoundController::update` (volume envelope
step).  Takes the period and direction and the (timer, volume) pair;
returns the updated pair. -/
def SoundController.envStep (period : Nat) (period_timer current_volume : Nat)
    (is_upwards : Bool) : Nat × Nat :=
  if period ≠ 0 then
    let period_timer := if period_timer > 0 then period_timer - 1 else period_timer
    if period_timer = 0 then
      let period_timer := period
      if (current_volume < 0xF ∧ is_upwards) ∨ (current_volume > 0x0 ∧ ¬is_upwards) then
        if is_upwards then (period_timer, current_volume + 1)
        else (period_timer, current_volume - 1)
      else (period_timer, current_volume)
    else (period_timer, current_volume)
  else (period_timer, current_volume)

/-- Frequency-timer stepping at the top of each iteration of the
`for clock in self.last_clock..clock_count` loop in
`SoundController::update` (a timer at 1 or 0 reloads and advances the
wave or duty position, otherwise it decrements). -/
def SoundController.freqTimerPhase (ch1_freq ch2_freq ch3_freq : Nat)
    (s : SoundController) : SoundController :=
  let s := if s.ch1_frequency_timer ≤ 1 then
      { s with ch1_frequency_timer := (2048 - ch1_freq) * 4,
               ch1_wave_duty_position := (s.ch1_wave_duty_position + 1) % 8 }
    else { s with ch1_frequency_timer := s.ch1_frequency_timer - 1 }
  let s := if s.ch2_frequency_timer ≤ 1 then
      { s with ch2_frequency_timer := (2048 - ch2_freq) * 4,
               ch2_wave_duty_position := (s.ch2_wave_duty_position + 1) % 8 }
    else { s with ch2_frequency_timer := s.ch2_frequency_timer - 1 }
  if s.ch3_frequency_timer ≤ 1 then
      { s with ch3_frequency_timer := (2048 - ch3_freq) * 2,
               ch3_wave_position := (s.ch3_wave_position + 1) % 32 }
  else { s with ch3_frequency_timer := s.ch3_frequency_timer - 1 }

/-- The 256 Hz length-counter sub-step of the frame sequencer in
`SoundController::update`: each length-enabled channel with a nonzero
length timer decrements it, and the channel-enable latch clears when it
reaches zero. -/
def SoundController.lengthPhase (s : SoundController) : SoundController :=
  let s := if s.nr14 &&& 0x40 ≠ 0 ∧ s.ch1_length_timer ≠ 0 then
      let lt := s.ch1_length_timer - 1
      { s with ch1_length_timer := lt,
               ch1_channel_enable := if lt = 0 then false else s.ch1_channel_enable }
    else s
  let s := if s.nr24 &&& 0x40 ≠ 0 ∧ s.ch2_length_timer ≠ 0 then
      let lt := s.ch2_length_timer - 1
      { s with ch2_length_timer := lt,
               ch2_channel_enable := if lt = 0 then false else s.ch2_channel_enable }
    else s
  if s.nr34 &&& 0x40 ≠ 0 ∧ s.ch3_length_timer ≠ 0 then
      let lt := s.ch3_length_timer - 1
      { s with ch3_length_timer := lt,
               ch3_channel_enable := if lt = 0 then false else s.ch3_channel_enable }
  else s

/-- The 64 Hz volume-envelope sub-step of the frame sequencer in
`SoundController::update`, applying `env` to channels 1 and 2. -/
def SoundController.envPhase (ch1_env_period : Nat) (ch1_env_direction : Bool)
    (ch2_period : Nat) (ch2_env_direction : Bool)
    (s : SoundController) : SoundController :=
  let e1 := SoundController.envStep ch1_env_period s.ch1_env_period_timer
      s.ch1_current_volume ch1_env_direction
  let s := { s with ch1_env_period_timer := e1.1, ch1_current_volume := e1.2 }
  let e2 := SoundController.envStep ch2_period s.ch2_env_period_timer
      s.ch2_current_volume ch2_env_direction
  { s with ch2_env_period_timer := e2.1, ch2_current_volume := e2.2 }

/-- The 128 Hz sweep sub-step of the frame sequencer in
`SoundController::update`.  The second component of the state is the
loop-local mutable `ch1_freq` of the source. -/
def SoundController.sweepPhase (ch1_sweep_period : Nat)
    (ch1_sweep_direction : Bool) (ch1_sweep_shift : Nat)
    (sc : SoundController × Nat) : SoundController × Nat :=
  let s := sc.1
  let ch1_freq := sc.2
  let s := if s.ch1_sweep_timer > 0 then
      { s with ch1_sweep_timer := s.ch1_sweep_timer - 1 } else s
  if s.ch1_sweep_timer = 0 then
    let s := { s with ch1_sweep_timer :=
        if ch1_sweep_period = 0 then 8 else ch1_sweep_period }
    if s.ch1_sweep_enabled ∧ ch1_sweep_period ≠ 0 then
      let c := s.calculate_frequency ch1_sweep_shift ch1_sweep_direction
      let new_freq := c.1
      let s := c.2
      if new_freq < 2048 ∧ ch1_sweep_shift > 0 then
        let ch1_freq := new_freq
        let upper := ch1_freq >>> 8
        let lower := ch1_freq &&& 0xFF
        let s := { s with nr14 := (s.nr14 &&& 0xF8) ||| (upper &&& 0x7),
                          nr13 := lower,
                          ch1_shadow_freq := new_freq }
        -- do overflow check again
        let s := (s.calculate_frequency ch1_sweep_shift ch1_sweep_direction).2
        (s, ch1_freq)
      else (s, ch1_freq)
    else (s, ch1_freq)
  else (s, ch1_freq)

/-- Sample collection at the bottom of the update loop body: advance the
`sample_mod` phase accumulator and, when it signals a sample instant,
mix the enabled channels into a stereo pair appended to the output
queue. -/
def SoundController.samplePhase (ch1_duty ch2_duty ch3_output_level : Nat)
    (volume_left : Nat) (ch1_left ch2_left ch3_left : Bool)
    (volume_right : Nat) (ch1_right ch2_right ch3_right : Bool)
    (s : SoundController) : SoundController :=
  let s := { s with sample_mod := (s.sample_mod + s.sample_frequency) % CLOCK_SPEED }
  if s.sample_mod < s.sample_frequency then
    let ch1_amp := ((WAVE_DUTY_TABLE ch1_duty >>> s.ch1_wave_duty_position) &&& 0x1)
        * s.ch1_current_volume
    let ch2_amp := ((WAVE_DUTY_TABLE ch2_duty >>> s.ch2_wave_duty_position) &&& 0x1)
        * s.ch2_current_volume
    let ch3_amp := ((s.ch3_wave_pattern (s.ch3_wave_position / 2)
        >>> (if s.ch3_wave_position % 2 = 0 then 4 else 0)) &&& 0xF) >>> ch3_output_level
    let left := 0
    let right := 0
    let left := if s.ch1_channel_enable ∧ ch1_left then left + ch1_amp else left
    let right := if s.ch1_channel_enable ∧ ch1_right then right + ch1_amp else right
    let left := if s.ch2_channel_enable ∧ ch2_left then left + ch2_amp else left
    let right := if s.ch2_channel_enable ∧ ch2_right then right + ch2_amp else right
    let left := if s.ch3_channel_enable ∧ s.nr30 &&& 0x80 ≠ 0 ∧ ch3_left
        then left + ch3_amp else left
    let right := if s.ch3_channel_enable ∧ s.nr30 &&& 0x80 ≠ 0 ∧ ch3_right
        then right + ch3_amp else right
    { s with output := s.output ++ [left * volume_left, right * volume_right] }
  else s

/-- One iteration of the `for clock in self.last_clock..clock_count`
loop in `SoundController::update`, as the composition of the phases
above in source order; the frame-sequencer sub-steps run only on the
512 Hz edges of `clock`.  The values read from the registers before the
loop are passed in; `ch1_freq` is the loop-carried mutable local of the
source, so the fold state is the pair (state, ch1_freq). -/
def SoundController.updateStep
    (ch1_duty ch1_sweep_period : Nat) (ch1_sweep_direction : Bool)
    (ch1_sweep_shift ch1_env_period : Nat) (ch1_env_direction : Bool)
    (ch2_duty ch2_freq ch2_period : Nat) (ch2_env_direction : Bool)
    (ch3_output_level ch3_freq : Nat)
    (volume_left : Nat) (ch1_left ch2_left ch3_left : Bool)
    (volume_right : Nat) (ch1_right ch2_right ch3_right : Bool)
    (sc : SoundController × Nat) (clock : Nat) : SoundController × Nat :=
  let s := SoundController.freqTimerPhase sc.2 ch2_freq ch3_freq sc.1
  let ch1_freq := sc.2
  let sfreq :=
    if clock % (CLOCK_SPEED / 512) = 0 then
      let s := if clock % (CLOCK_SPEED / 256) = 0 then s.lengthPhase else s
      let s := if clock % (CLOCK_SPEED / 64) = 0 then
          s.envPhase ch1_env_period ch1_env_direction ch2_period ch2_env_direction
        else s
      if (clock + CLOCK_SPEED / 256) % (CLOCK_SPEED / 128) = 0 then
        SoundController.sweepPhase ch1_sweep_period ch1_sweep_direction
          ch1_sweep_shift (s, ch1_freq)
      else (s, ch1_freq)
    else (s, ch1_freq)
  let s := SoundController.samplePhase ch1_duty ch2_duty ch3_output_level
      volume_left ch1_left ch2_left ch3_left
      volume_right ch1_right ch2_right ch3_right sfreq.1
  (s, sfreq.2)

/-- `SoundController::update`: catches the APU up from `last_clock` to
`clock_count`.  The power-off branch reproduces the source literally,
including the `elapsed_clock` being computed after `last_clock` has
already been assigned (so it is always 0). -/
def SoundController.update (clock_count : Nat) (s : SoundController) : SoundController :=
  if ¬s.on_flag then
    let anchor := s.last_clock - s.last_clock % CLOCK_SPEED
    let l := s.last_clock - anchor
    let r := clock_count - anchor
    let n := r * s.sample_frequency / CLOCK_SPEED - l * s.sample_frequency / CLOCK_SPEED
        + (if l * s.sample_frequency % CLOCK_SPEED < s.sample_frequency then 1 else 0)
    let s := { s with output := s.output ++ List.replicate (2 * n) 0 }
    let s := { s with last_clock := clock_count }
    let elapsed_clock := clock_count - s.last_clock
    { s with sample_mod := (s.sample_mod + elapsed_clock * s.sample_frequency) % CLOCK_SPEED }
  else
    let ch1_duty := (s.nr11 >>> 6) &&& 0x3
    let ch1_freq := ((s.nr14 <<< 8) ||| s.nr13) &&& 0x07FF
    let ch1_sweep_period := (s.nr10 &&& 0x70) >>> 4
    let ch1_sweep_direction := s.nr10 &&& 0x80 ≠ 0
    let ch1_sweep_shift := s.nr10 &&& 0x7
    let ch1_env_period := s.nr12 &&& 0x7
    let ch1_env_direction := s.nr12 &&& 0x08 ≠ 0
    let ch2_duty := (s.nr21 >>> 6) &&& 0x3
    let ch2_freq := ((s.nr24 <<< 8) ||| s.nr23) &&& 0x07FF
    let ch2_period := s.nr22 &&& 0x7
    let ch2_env_direction := s.nr22 &&& 0x08 ≠ 0
    let ch3_output_level := [4, 0, 1, 2].getD ((s.nr32 &&& 0x60) >>> 5) 0
    let ch3_freq := ((s.nr34 <<< 8) ||| s.nr33) &&& 0x07FF
    let volume_left := (s.nr50 &&& 0x70) >>> 4
    let ch1_left := s.nr51 &&& 0x10 ≠ 0
    let ch2_left := s.nr51 &&& 0x20 ≠ 0
    let ch3_left := s.nr51 &&& 0x40 ≠ 0
    let volume_right := s.nr50 &&& 0x7
    let ch1_right := s.nr51 &&& 0x01 ≠ 0
    let ch2_right := s.nr51 &&& 0x02 ≠ 0
    let ch3_right := s.nr51 &&& 0x04 ≠ 0
    let res := (List.range' s.last_clock (clock_count - s.last_clock)).foldl
      (SoundController.updateStep ch1_duty ch1_sweep_period ch1_sweep_direction
        ch1_sweep_shift ch1_env_period ch1_env_direction
        ch2_duty ch2_freq ch2_period ch2_env_direction
        ch3_output_level ch3_freq
        volume_left ch1_left ch2_left ch3_left
        volume_right ch1_right ch2_right ch3_right)
      (s, ch1_freq)
    { res.1 with last_clock := clock_count }

/-- `SoundController::write`: register write at the given clock.  The
`eprintln!` debug prints of the source are host I/O, not state, and are
dropped.  Writing a value with bit 7 clear to NR52 replaces the whole
state with `SoundController::default()`. -/
def SoundController.write (clock_count : Nat) (address value : Nat)
    (s0 : SoundController) : SoundController :=
  let s := s0.update clock_count
  if address = 0x10 then { s with nr10 := value }
  else if address = 0x11 then
    let s := { s with nr11 := value }
    { s with ch1_length_timer := 64 - (s.nr11 &&& 0x3F) }
  else if address = 0x12 then { s with nr12 := value }
  else if address = 0x13 then { s with nr13 := value }
  else if address = 0x14 then
    let s :=
      if value &&& 0x80 ≠ 0 then
        -- Trigger event
        let ch1_freq := ((s.nr14 <<< 8) ||| s.nr13) &&& 0x07FF
        let ch1_sweep_period := (s.nr10 &&& 0x70) >>> 4
        let ch1_sweep_shift := s.nr10 &&& 0x7
        let ch1_sweep_direction := s.nr10 &&& 0x80 ≠ 0
        let s := { s with ch1_channel_enable := true }
        let s := if s.ch1_length_timer = 0 then { s with ch1_length_timer := 64 } else s
        let s := { s with ch1_frequency_timer := (2048 - ch1_freq) * 4,
                          ch1_wave_duty_position := 0,
                          ch1_sweep_timer :=
                            if ch1_sweep_period = 0 then 8 else ch1_sweep_period }
        let s := { s with ch1_shadow_freq := s.ch1_frequency_timer,
                          ch1_sweep_enabled := ch1_sweep_period ≠ 0 ∨ ch1_sweep_shift ≠ 0 }
        let s := if ch1_sweep_period ≠ 0 then
            (s.calculate_frequency ch1_sweep_shift ch1_sweep_direction).2
          else s
        { s with ch1_env_period_timer := s.nr12 &&& 0x07,
                 ch1_current_volume := (s.nr12 &&& 0xF0) >>> 4 }
      else s
    { s with nr14 := value }
  else if address = 0x16 then { s with nr21 := value }
  else if address = 0x17 then { s with nr22 := value }
  else if address = 0x18 then
    let s := { s with nr23 := value }
    { s with ch2_length_timer := 64 - (s.nr21 &&& 0x3F) }
  else if address = 0x19 then
    let s :=
      if value &&& 0x80 ≠ 0 then
        -- Trigger event
        let ch2_freq := ((s.nr24 <<< 8) ||| s.nr23) &&& 0x07FF
        let s := { s with ch2_channel_enable := true }
        let s := if s.ch2_length_timer = 0 then { s with ch2_length_timer := 64 } else s
        { s with ch2_env_period_timer := s.nr22 &&& 0x07,
                 ch2_current_volume := (s.nr22 &&& 0xF0) >>> 4,
                 ch2_frequency_timer := (2048 - ch2_freq) * 4,
                 ch2_wave_duty_position := 0 }
      else s
    { s with nr24 := value }
  else if address = 0x1A then { s with nr30 := value }
  else if address = 0x1B then
    let s := { s with nr31 := value }
    { s with ch3_length_timer := 256 - s.nr31 }
  else if address = 0x1C then { s with nr32 := value }
  else if address = 0x1D then { s with nr33 := value }
  else if address = 0x1E then
    let s :=
      if value &&& 0x80 ≠ 0 then
        -- Trigger event
        let ch3_freq := ((s.nr34 <<< 8) ||| s.nr33) &&& 0x07FF
        let s := { s with ch3_channel_enable := true }
        let s := if s.ch3_length_timer = 0 then { s with ch3_length_timer := 256 } else s
        { s with ch3_frequency_timer := (2048 - ch3_freq) * 2,
                 ch3_wave_position := 0 }
      else s
    { s with nr34 := value }
  else if address = 0x20 then { s with nr41 := value }
  else if address = 0x21 then { s with nr42 := value }
  else if address = 0x22 then { s with nr43 := value }
  else if address = 0x23 then { s with nr44 := value }
  else if address = 0x24 then { s with nr50 := value }
  else if address = 0x25 then { s with nr51 := value }
  else if address = 0x26 then
    -- Bit 7 stops all sounds; off resets all registers
    if value &&& 0x80 = 0 then SoundController.default
    else { s with on_flag := true }
  else if 0x30 ≤ address ∧ address ≤ 0x3F then
    { s with ch3_wave_pattern := fun i =>
        if i = address - 0x30 then value else s.ch3_wave_pattern i }
  else s

/-- `SoundController::read`: register read.  The catch-all
`unreachable!()` arm of the source is modelled as `none`. -/
def SoundController.read (s : SoundController) (address : Nat) : Option Nat :=
  if address = 0x10 then some s.nr10
  else if address = 0x11 then some s.nr11
  else if address = 0x12 then some s.nr12
  else if address = 0x13 then some s.nr13
  else if address = 0x14 then some s.nr14
  else if address = 0x16 then some s.nr21
  else if address = 0x17 then some s.nr22
  else if address = 0x18 then some s.nr23
  else if address = 0x19 then some s.nr24
  else if address = 0x1A then some s.nr30
  else if address = 0x1B then some s.nr31
  else if address = 0x1C then some s.nr32
  else if address = 0x1D then some s.nr33
  else if address = 0x1E then some s.nr34
  else if address = 0x20 then some s.nr41
  else if address = 0x21 then some s.nr42
  else if address = 0x22 then some s.nr43
  else if address = 0x23 then some s.nr44
  else if address = 0x24 then some s.nr50
  else if address = 0x25 then some s.nr51
  else if address = 0x26 then some s.nr52
  else if 0x30 ≤ address ∧ address ≤ 0x3F then some (s.ch3_wave_pattern (address - 0x30))
  else none

/-- Modelled from the spec: `ime` of the CPU (spec section 3), enum
`ImeState` in src/core/src/gameboy/cpu.rs which is not under src/. -/
inductive ImeState where
  | disabled
  | toBeEnabled
  | enabled
deriving DecidableEq

/-- Modelled from the spec: the CPU execution state (spec section 3),
enum `CpuState` in src/core/src/gameboy/cpu.rs which is not under
src/. -/
inductive CpuState where
  | running
  | halted
  | stopped
  | haltBug
deriving DecidableEq

/-- Modelled from the spec: the CPU register file (spec section 3),
`struct Cpu` in src/core/src/gameboy/cpu.rs which is not under src/.
The fields are the ones gameboy.rs itself assigns in
`reset_after_boot`; `f` is the packed flags byte (`cpu::Flags`). -/
structure Cpu where
  a : Nat
  f : Nat
  b : Nat
  c : Nat
  d : Nat
  e : Nat
  h : Nat
  l : Nat
  sp : Nat
  pc : Nat
  ime : ImeState
  state : CpuState

/-- Modelled from the spec: `Cpu::default()` (power-on register file,
all zero, interrupts disabled, running); only used by `GameBoy::new`
before the boot ROM or `reset_after_boot` overwrites it. -/
def Cpu.default : Cpu where
  a := 0
  f := 0
  b := 0
  c := 0
  d := 0
  e := 0
  h := 0
  l := 0
  sp := 0
  pc := 0
  ime := ImeState.disabled
  state := CpuState.running

/-- The timer state: the fields are exactly the ones gameboy.rs assigns
in `reset_after_boot` (`struct Timer` itself lives in
src/core/src/gameboy/timer.rs, not under src/). -/
structure Timer where
  div : Nat
  tima : Nat
  tma : Nat
  tac : Nat
  last_counter_bit : Bool
  last_clock_count : Nat
  loading : Nat

/-- Modelled from the spec: `Timer::new()` (zeroed timer), from
src/core/src/gameboy/timer.rs which is not under src/. -/
def Timer.new : Timer where
  div := 0
  tima := 0
  tma := 0
  tac := 0
  last_counter_bit := false
  last_clock_count := 0
  loading := 0

/-- Modelled from the spec (section 4.B): one T-cycle of the timer.
`div` advances by 1; TIMA increments on the falling edge of the TAC-
selected bit of `div` ANDed with the TAC enable bit; on overflow TIMA
reads 0 for 4 cycles (`loading`) and is then reloaded from TMA, raising
the timer interrupt.  Returns the new state and the interrupt flag. -/
def Timer.stepCycle (t : Timer) : Timer × Bool :=
  let div := (t.div + 1) % 65536
  let sel := [9, 3, 5, 7].getD (t.tac &&& 3) 9
  let bit := Nat.testBit div sel ∧ t.tac &&& 4 ≠ 0
  let t1 : Timer :=
    if t.last_counter_bit ∧ ¬bit then
      let tima := t.tima + 1
      if tima > 0xFF then { t with div := div, last_counter_bit := bit, tima := 0, loading := 4 }
      else { t with div := div, last_counter_bit := bit, tima := tima }
    else { t with div := div, last_counter_bit := bit }
  if t1.loading > 0 then
    let loading := t1.loading - 1
    if loading = 0 then ({ t1 with loading := 0, tima := t1.tma }, true)
    else ({ t1 with loading := loading }, false)
  else (t1, false)

/-- Modelled from the spec (section 4.B): `Timer::update` catches the
timer up to `clock_count`, one T-cycle at a time, and reports whether a
timer interrupt was raised somewhere in the stretch. -/
def Timer.update (clock_count : Nat) (t : Timer) : Timer × Bool :=
  let r := (List.range (clock_count - t.last_clock_count)).foldl
    (fun (acc : Timer × Bool) _ =>
      let st := acc.1.stepCycle
      (st.1, acc.2 ∨ st.2))
    (t, false)
  ({ r.1 with last_clock_count := clock_count }, r.2)

/-- Modelled from the spec (section 4.B): timer register reads at
0xFF04-0xFF07 (DIV is the upper byte of the internal counter). -/
def Timer.read (t : Timer) (address : Nat) : Nat :=
  if address = 0x04 then (t.div >>> 8) &&& 0xFF
  else if address = 0x05 then t.tima
  else if address = 0x06 then t.tma
  else if address = 0x07 then t.tac
  else 0xFF

/-- Modelled from the spec (section 4.B): timer register writes.
Writing DIV clears the whole internal counter; a TIMA write during the
reload window cancels the reload. -/
def Timer.write (t : Timer) (address value : Nat) : Timer :=
  if address = 0x04 then { t with div := 0 }
  else if address = 0x05 then { t with tima := value, loading := 0 }
  else if address = 0x06 then { t with tma := value }
  else { t with tac := value }

/-- Modelled from the spec (sections 3 and 4.D): the PPU state, from
src/core/src/gameboy/ppu.rs which is not under src/.  Only the pieces
some claim can touch are modelled: VRAM, OAM, the register window
0xFF40-0xFF4B as a byte map, the scanline position and mode, and the
clock it was last caught up to. -/
structure Ppu where
  vram : Nat → Nat
  oam : Nat → Nat
  regs : Nat → Nat
  mode : Nat
  ly : Nat
  dot : Nat
  last_clock : Nat

/-- Modelled from the spec: `Ppu::default()` (zeroed PPU). -/
def Ppu.default : Ppu where
  vram := fun _ => 0
  oam := fun _ => 0
  regs := fun _ => 0
  mode := 0
  ly := 0
  dot := 0
  last_clock := 0

/-- Modelled from the spec: `Ppu::reset_after_boot` puts the PPU at the
post-boot fingerprint, caught up to the post-boot clock 23,440,324. -/
def Ppu.reset_after_boot (p : Ppu) : Ppu :=
  { p with mode := 1, ly := 0, dot := 0, last_clock := 23440324 }

/-- Modelled from the spec (section 4.A): the cartridge, from
src/core/src/gameboy/cartridge.rs which is not under src/.  Only the
NoMBC shape is modelled (ROM bytes plus a RAM bank); no claim exercises
bank switching. -/
structure Cartridge where
  rom : Nat → Nat
  ram : Nat → Nat

/-- Modelled from the spec (section 4.A): `Cartridge::read` over
0x0000-0x7FFF (ROM) and 0xA000-0xBFFF (RAM). -/
def Cartridge.read (c : Cartridge) (address : Nat) : Nat :=
  if address ≤ 0x7FFF then c.rom address else c.ram (address - 0xA000)

/-- Modelled from the spec (section 4.A): `Cartridge::write`; RAM
writes stick, ROM-range writes are bank-control on an MBC and have no
modelled effect for NoMBC. -/
def Cartridge.write (c : Cartridge) (address value : Nat) : Cartridge :=
  if 0xA000 ≤ address ∧ address ≤ 0xBFFF then
    { c with ram := fun i => if i = address - 0xA000 then value else c.ram i }
  else c

/-- The offset between `clock_count` and the serial transfer clock, in
cycles (`SERIAL_OFFSET` in gameboy.rs). -/
def SERIAL_OFFSET : Nat := 8

/-- The whole machine, mirroring `struct GameBoy` in
src/core/src/gameboy.rs.  The `trace` debugger hook and the boxed
`v_blank` callback carry no core state and are not modelled; the boxed
`serial_transfer_callback` is modelled by `serial_out_log`, the list of
bytes it has been invoked with, in order. -/
structure GameBoy where
  cpu : Cpu
  cartridge : Cartridge
  wram : Nat → Nat
  hram : Nat → Nat
  boot_rom : Option (Nat → Nat)
  boot_rom_active : Bool
  clock_count : Nat
  timer : Timer
  sound : SoundController
  ppu : Ppu
  joypad_io : Nat
  joypad : Nat
  serial_data : Nat
  serial_control : Nat
  serial_transfer_started : Nat
  serial_out_log : List Nat
  interrupt_flag : Nat
  dma : Nat
  interrupt_enabled : Nat
  v_blank_trigger : Bool

/-- Modelled from the spec (sections 4.D and 5): `Ppu::read_vram`; VRAM
is blocked (reads 0xFF) while the PPU is in mode 3. -/
def Ppu.read_vram (gb : GameBoy) (address : Nat) : Nat :=
  if gb.ppu.mode = 3 then 0xFF else gb.ppu.vram (address - 0x8000)

/-- Modelled from the spec (sections 4.D and 5): `Ppu::write_vram`;
writes are dropped while the PPU is in mode 3. -/
def Ppu.write_vram (gb : GameBoy) (address value : Nat) : GameBoy :=
  if gb.ppu.mode = 3 then gb
  else { gb with ppu := { gb.ppu with vram := fun i =>
      if i = address - 0x8000 then value else gb.ppu.vram i } }

/-- Modelled from the spec (sections 4.D and 5): `Ppu::read_oam`; OAM
is blocked (reads 0xFF) during modes 2 and 3. -/
def Ppu.read_oam (gb : GameBoy) (address : Nat) : Nat :=
  if gb.ppu.mode = 2 ∨ gb.ppu.mode = 3 then 0xFF
  else gb.ppu.oam (address - 0xFE00)

/-- Modelled from the spec (sections 4.D and 5): `Ppu::write_oam`;
writes are dropped during modes 2 and 3. -/
def Ppu.write_oam (gb : GameBoy) (address value : Nat) : GameBoy :=
  if gb.ppu.mode = 2 ∨ gb.ppu.mode = 3 then gb
  else { gb with ppu := { gb.ppu with oam := fun i =>
      if i = address - 0xFE00 then value else gb.ppu.oam i } }

/-- Modelled from the spec (section 4.D): `Ppu::read` of the register
window 0xFF40-0xFF4B; LY (0xFF44) reads the scanline counter. -/
def Ppu.read (gb : GameBoy) (address : Nat) : Nat :=
  if address = 0x44 then gb.ppu.ly else gb.ppu.regs address

/-- Modelled from the spec (section 4.D): `Ppu::write` of the register
window 0xFF40-0xFF4B. -/
def Ppu.write (gb : GameBoy) (address value : Nat) : GameBoy :=
  { gb with ppu := { gb.ppu with regs := fun i =>
      if i = address then value else gb.ppu.regs i } }

/-- Modelled from the spec (section 4.D): `Ppu::start_dma` latches the
DMA source register; the 160-M-cycle OAM transfer engine lives in
ppu.rs, which is not under src/, and no claim exercises it. -/
def Ppu.start_dma (gb : GameBoy) (value : Nat) : GameBoy :=
  { gb with dma := value }

/-- Number of VBlank starts (position `144 * 456` of each 70224-dot
frame) at or before the absolute dot position `pos`. -/
def vblankCount (pos : Nat) : Nat :=
  if pos < 65664 then 0 else (pos - 65664) / 70224 + 1

/-- Modelled from the spec (sections 4.D and 4.G): `Ppu::update`
catches the PPU up to `clock_count`, returning the machine together
with the VBlank-interrupt and STAT-interrupt edges.  The scanline
position advances dot per T-cycle through 154 lines of 456 dots; the
VBlank edge fires when line 144 starts.  The STAT interrupt machinery
is not modelled (no claim exercises it), so the STAT edge is never
raised here. -/
def Ppu.update (gb : GameBoy) : GameBoy × Bool × Bool :=
  let p := gb.ppu
  let delta := gb.clock_count - p.last_clock
  let pos := p.ly * 456 + p.dot
  let total := (pos + delta) % 70224
  let ly2 := total / 456
  let dot2 := total % 456
  let mode2 := if ly2 ≥ 144 then 1 else if dot2 < 80 then 2
    else if dot2 < 252 then 3 else 0
  let vb : Bool := vblankCount (pos + delta) > vblankCount pos
  let p2 : Ppu := { p with last_clock := gb.clock_count, ly := ly2, dot := dot2, mode := mode2 }
  ({ gb with ppu := p2 }, vb, false)

/-- `GameBoy::read_io`: I/O register read dispatch for a register index
0x00-0xFF.  The sound arm follows `SoundController::read` as it stands
in src/core/src/sound_controller.rs (a plain register read). -/
def GameBoy.read_io (gb : GameBoy) (address : Nat) : Option Nat :=
  if address = 0x00 then
    -- JOYPAD
    let v := gb.joypad_io &&& 0x30
    let r := v ||| 0xC0
    let r := if v &&& 0x10 ≠ 0 then r ||| ((gb.joypad >>> 4) &&& 0x0F) else r
    let r := if v &&& 0x20 ≠ 0 then r ||| (gb.joypad &&& 0x0F) else r
    let r := if v = 0 then r ||| 0x0F else r
    some r
  else if address = 0x01 then some gb.serial_data
  else if address = 0x02 then some gb.serial_control
  else if address = 0x03 then some 0xFF
  else if 0x04 ≤ address ∧ address ≤ 0x07 then some (gb.timer.read address)
  else if 0x08 ≤ address ∧ address ≤ 0x0E then some 0xFF
  else if address = 0x0F then some (gb.interrupt_flag ||| 0xE0)
  else if (0x10 ≤ address ∧ address ≤ 0x14) ∨ (0x16 ≤ address ∧ address ≤ 0x1E)
      ∨ (0x20 ≤ address ∧ address ≤ 0x26) ∨ (0x30 ≤ address ∧ address ≤ 0x3F) then
    SoundController.read gb.sound address
  else if address = 0x15 then some 0xFF
  else if address = 0x1F then some 0xFF
  else if 0x27 ≤ address ∧ address ≤ 0x2F then some 0xFF
  else if 0x40 ≤ address ∧ address ≤ 0x45 then some (Ppu.read gb address)
  else if address = 0x46 then some gb.dma
  else if 0x47 ≤ address ∧ address ≤ 0x4B then some (Ppu.read gb address)
  else if address = 0x4C then some 0xFF
  else if address = 0x4D then some 0xFF
  else if 0x4E ≤ address ∧ address ≤ 0x4F then some 0xFF
  else if address = 0x50 then some 0xFF
  else if 0x51 ≤ address ∧ address ≤ 0x7F then some 0xFF
  else if 0x80 ≤ address ∧ address ≤ 0xFE then some (gb.hram (address - 0x80))
  else some gb.interrupt_enabled

/-- The arms of the `match address` in `GameBoy::write_io`, one
constructor per distinct right-hand side (the several `{}` no-op arms
share `noopArm`). -/
inductive WriteIoArm where
  | joypadArm
  | serialDataArm
  | serialControlArm
  | noopArm
  | timerArm
  | ifArm
  | soundArm
  | ppuArm
  | dmaArm
  | bootArm
  | hramArm
  | ieArm

/-- The pattern part of the `match address` in `GameBoy::write_io`:
which arm a register index 0x00-0xFF selects, conditions in source
order. -/
def writeIoArm (address : Nat) : WriteIoArm :=
  if address = 0x00 then WriteIoArm.joypadArm
  else if address = 0x01 then WriteIoArm.serialDataArm
  else if address = 0x02 then WriteIoArm.serialControlArm
  else if address = 0x03 then WriteIoArm.noopArm
  else if 0x04 ≤ address ∧ address ≤ 0x07 then WriteIoArm.timerArm
  else if 0x08 ≤ address ∧ address ≤ 0x0E then WriteIoArm.noopArm
  else if address = 0x0F then WriteIoArm.ifArm
  else if (0x10 ≤ address ∧ address ≤ 0x14) ∨ (0x16 ≤ address ∧ address ≤ 0x1E)
      ∨ (0x20 ≤ address ∧ address ≤ 0x26) ∨ (0x30 ≤ address ∧ address ≤ 0x3F) then
    WriteIoArm.soundArm
  else if address = 0x15 then WriteIoArm.noopArm
  else if address = 0x1F then WriteIoArm.noopArm
  else if 0x27 ≤ address ∧ address ≤ 0x2F then WriteIoArm.noopArm
  else if 0x40 ≤ address ∧ address ≤ 0x45 then WriteIoArm.ppuArm
  else if address = 0x46 then WriteIoArm.dmaArm
  else if 0x47 ≤ address ∧ address ≤ 0x4B then WriteIoArm.ppuArm
  else if 0x4C ≤ address ∧ address ≤ 0x4F then WriteIoArm.noopArm
  else if address = 0x50 then WriteIoArm.bootArm
  else if 0x51 ≤ address ∧ address ≤ 0x7F then WriteIoArm.noopArm
  else if 0x80 ≤ address ∧ address ≤ 0xFE then WriteIoArm.hramArm
  else WriteIoArm.ieArm

/-- `GameBoy::write_io`: I/O register write dispatch for a register
index 0x00-0xFF, the arm bodies of the source `match`.  Invoking the
serial-transfer callback is modelled by appending the byte to
`serial_out_log`. -/
def GameBoy.write_io (gb : GameBoy) (address value : Nat) : GameBoy :=
  match writeIoArm address with
  | WriteIoArm.joypadArm => { gb with joypad_io := 0xCF ||| (value &&& 0x30) }
  | WriteIoArm.serialDataArm => { gb with serial_data := value }
  | WriteIoArm.serialControlArm =>
    let gb := { gb with serial_control := value ||| 0x7E }
    if value &&& 0x81 = 0x81 then
      -- serial transfer is aligned to a 8192Hz (2^13 Hz) clock
      { gb with serial_transfer_started := (gb.clock_count + SERIAL_OFFSET) >>> 9,
                serial_out_log := gb.serial_out_log ++ [gb.serial_data] }
    else gb
  | WriteIoArm.noopArm => gb
  | WriteIoArm.timerArm => { gb with timer := gb.timer.write address value }
  | WriteIoArm.ifArm => { gb with interrupt_flag := value }
  | WriteIoArm.soundArm =>
    { gb with sound := SoundController.write gb.clock_count address value gb.sound }
  | WriteIoArm.ppuArm => Ppu.write gb address value
  | WriteIoArm.dmaArm =>
    -- DMA Transfer
    Ppu.start_dma gb value
  | WriteIoArm.bootArm =>
    if gb.boot_rom_active ∧ value &&& 0b1 ≠ 0 then
      { gb with boot_rom_active := false, cpu := { gb.cpu with pc := 0x100 } }
    else gb
  | WriteIoArm.hramArm =>
    { gb with hram := fun i => if i = address - 0x80 then value else gb.hram i }
  | WriteIoArm.ieArm => { gb with interrupt_enabled := value }

/-- The ECHO-RAM address rewrite at the top of `GameBoy::read` and
`GameBoy::write`: `if (0xE000..=0xFDFF).contains(&address) { address -=
0x2000; }`. -/
def rewriteAddr (address : Nat) : Nat :=
  if 0xE000 ≤ address ∧ address ≤ 0xFDFF then address - 0x2000 else address

/-- The `match address` decode of `GameBoy::read`, applied to the
already-rewritten address.  `none` models the `unreachable!()` ECHO
arm. -/
def GameBoy.readDecoded (gb : GameBoy) (address : Nat) : Option Nat :=
  -- Cartridge ROM
  if address ≤ 0x7FFF then some (gb.cartridge.read address)
  -- Video RAM
  else if address ≤ 0x9FFF then some (Ppu.read_vram gb address)
  -- Cartridge RAM
  else if address ≤ 0xBFFF then some (gb.cartridge.read address)
  -- Work RAM
  else if address ≤ 0xDFFF then some (gb.wram (address - 0xC000))
  -- ECHO RAM
  else if address ≤ 0xFDFF then none
  -- Sprite Attribute table
  else if address ≤ 0xFE9F then some (Ppu.read_oam gb address)
  -- Not Usable
  else if address ≤ 0xFEFF then some 0xFF
  -- I/O registers
  else if address ≤ 0xFF7F then gb.read_io (address % 256)
  -- Hight RAM
  else if address ≤ 0xFFFE then some (gb.hram (address - 0xFF80))
  -- IE Register
  else gb.read_io (address % 256)

/-- `GameBoy::read`: the bus read, the boot-ROM overlay check followed
by the ECHO rewrite and the decode.  `none` models a panic: the
`unreachable!()` ECHO arm, or the `expect` on a missing boot ROM. -/
def GameBoy.read (gb : GameBoy) (address : Nat) : Option Nat :=
  if gb.boot_rom_active ∧ address < 0x100 then
    match gb.boot_rom with
    | some boot_rom => some (boot_rom address)
    | none => none
  else gb.readDecoded (rewriteAddr address)

/-- The `match address` decode of `GameBoy::write`, applied to the
already-rewritten address.  `none` models the `unreachable!()` ECHO
arm. -/
def GameBoy.writeDecoded (gb : GameBoy) (address value : Nat) : Option GameBoy :=
  -- Cartridge ROM
  if address ≤ 0x7FFF then some { gb with cartridge := gb.cartridge.write address value }
  -- Video RAM
  else if address ≤ 0x9FFF then some (Ppu.write_vram gb address value)
  -- Cartridge RAM
  else if address ≤ 0xBFFF then some { gb with cartridge := gb.cartridge.write address value }
  -- Work RAM
  else if address ≤ 0xDFFF then
    some { gb with wram := fun i => if i = address - 0xC000 then value else gb.wram i }
  -- ECHO RAM
  else if address ≤ 0xFDFF then none
  -- Sprite Attribute table
  else if address ≤ 0xFE9F then some (Ppu.write_oam gb address value)
  -- Not Usable
  else if address ≤ 0xFEFF then some gb
  -- I/O registers
  else if address ≤ 0xFF7F then some (gb.write_io (address % 256) value)
  -- Hight RAM
  else if address ≤ 0xFFFE then
    some { gb with hram := fun i => if i = address - 0xFF80 then value else gb.hram i }
  -- IE Register
  else some (gb.write_io (address % 256) value)

/-- `GameBoy::write`: the bus write, the ECHO rewrite followed by the
decode. -/
def GameBoy.write (gb : GameBoy) (address value : Nat) : Option GameBoy :=
  gb.writeDecoded (rewriteAddr address) value

/-- The first half of `GameBoy::tick`: advance `clock_count` by
`count` cycles, then catch up the PPU and the timer, raising their
interrupt flags. -/
def GameBoy.tickPre (count : Nat) (gb : GameBoy) : GameBoy :=
  let gb := { gb with clock_count := gb.clock_count + count }
  -- ppu
  let pu := Ppu.update gb
  let gb := pu.1
  let gb := if pu.2.2 then { gb with interrupt_flag := gb.interrupt_flag ||| (1 <<< 1) } else gb
  let gb := if pu.2.1 then
      { gb with interrupt_flag := gb.interrupt_flag ||| (1 <<< 0), v_blank_trigger := true }
    else gb
  -- timer
  let tu := Timer.update gb.clock_count gb.timer
  let gb := { gb with timer := tu.1 }
  if tu.2 then { gb with interrupt_flag := gb.interrupt_flag ||| (1 <<< 2) } else gb

/-- `GameBoy::tick`: advance the clock by `count` cycles and catch up
the PPU, the timer and the serial port. -/
def GameBoy.tick (count : Nat) (gb : GameBoy) : GameBoy :=
  let gb := GameBoy.tickPre count gb
  -- serial
  if gb.serial_transfer_started ≠ 0
      ∧ gb.serial_transfer_started + 7 < (gb.clock_count + SERIAL_OFFSET) >>> 9 then
    { gb with interrupt_flag := gb.interrupt_flag ||| (1 <<< 3),
              serial_control := gb.serial_control &&& 0x7F,
              serial_transfer_started := 0 }
  else gb

/-- Modelled from the spec: the embedded APU snapshot
`../after_boot/sound.sav` loaded by `reset_after_boot` is not under
src/; no claim depends on its contents, so the post-boot APU state is
left as the default controller caught up to the post-boot clock. -/
def afterBootSound : SoundController :=
  { SoundController.default with last_clock := 23440324 }

/-- `GameBoy::reset_after_boot`: reset the gameboy to its state after
disabling the boot ROM (the post-boot fingerprint). -/
def GameBoy.reset_after_boot (gb : GameBoy) : GameBoy :=
  let cpu : Cpu :=
    { a := 0x01, f := 0xB0, b := 0x00, c := 0x13, d := 0x00, e := 0xD8,
      h := 0x01, l := 0x4D, sp := 0xFFFE, pc := 0x0100,
      ime := ImeState.disabled, state := CpuState.running }
  let timer : Timer :=
    { div := 0xABCC, tima := 0x00, tma := 0x00, tac := 0xF8,
      last_counter_bit := false, last_clock_count := 23440324, loading := 0 }
  { gb with
    cpu := cpu,
    wram := fun _ => 0,
    hram := fun i => if i = 0x7A then 0x39 else if i = 0x7B then 0x01
      else if i = 0x7C then 0x2E else 0,
    boot_rom_active := false,
    clock_count := 23440324,
    ppu := gb.ppu.reset_after_boot,
    joypad := 0xFF,
    joypad_io := 0xCF,
    serial_data := 0x00,
    serial_control := 0x7E,
    timer := timer,
    interrupt_flag := 0xE1,
    sound := afterBootSound }

/-- `GameBoy::new`: power the machine on; without a boot ROM the state
is immediately fast-forwarded past the boot by `reset_after_boot`. -/
def GameBoy.new (boot_rom : Option (Nat → Nat)) (cartridge : Cartridge) : GameBoy :=
  let this : GameBoy :=
    { cpu := Cpu.default,
      cartridge := cartridge,
      wram := fun _ => 0,
      hram := fun _ => 0,
      boot_rom := boot_rom,
      boot_rom_active := true,
      clock_count := 0,
      timer := Timer.new,
      sound := SoundController.default,
      ppu := Ppu.default,
      joypad := 0xFF,
      joypad_io := 0x00,
      serial_data := 0,
      serial_control := 0x7E,
      serial_transfer_started := 0,
      serial_out_log := [],
      interrupt_flag := 0,
      dma := 0xFF,
      interrupt_enabled := 0,
      v_blank_trigger := false }
  if this.boot_rom.isNone then this.reset_after_boot else this

/-- A bus operation: a CPU-visible read or write of one byte. -/
inductive BusOp where
  | read (address : Nat)
  | write (address value : Nat)

/-- Modelled from the spec (sections 2, 4.G and 9): the CPU interpreter
(src/core/src/interpreter.rs, not under src/) performs every memory
access through the bus and advances the scheduler by one M-cycle (4
T-cycles) around it, so a bus access is the `GameBoy::read` /
`GameBoy::write` call followed by `tick(4)`. -/
def busStep (op : BusOp) (gb : GameBoy) : Option GameBoy :=
  match op with
  | BusOp.read address => (gb.read address).map (fun _ => GameBoy.tick 4 gb)
  | BusOp.write address value => (gb.write address value).map (GameBoy.tick 4)

/-- A sequence of bus operations, each one a read or write followed by
its 4-T-cycle tick. -/
def runBusOps (ops : List BusOp) (gb : GameBoy) : Option GameBoy :=
  match ops with
  | [] => some gb
  | op :: rest => (busStep op gb).bind (runBusOps rest)

/-- A concrete cartridge (all-zero ROM and RAM) used to instantiate
theorems on closed inputs. -/
def cart0 : Cartridge := { rom := fun _ => 0, ram := fun _ => 0 }

/-- A concrete machine powered on without a boot ROM. -/
def gb0 : GameBoy := GameBoy.new none cart0

/-- A concrete machine powered on with a boot ROM. -/
def gbBoot : GameBoy := GameBoy.new (some (fun _ => 0xAB)) cart0

/-- A concrete machine with a serial transfer in progress that the next
tick of 4 cycles completes. -/
def gbSerial : GameBoy := { gb0 with serial_transfer_started := 1, clock_count := 4608 }

/-- A concrete machine with a serial transfer in progress far from
completion. -/
def gbSerialEarly : GameBoy := { gb0 with serial_transfer_started := 1, clock_count := 0 }

/-- Bit `i` of `x ||| b` agrees with bit `i` of `x` when `b` has bit
`i` clear. -/
theorem testBit_or_of_right_false (x b i : Nat) (h : Nat.testBit b i = false) :
    Nat.testBit (x ||| b) i = Nat.testBit x i := by
  simp [Nat.testBit_or, h]

/-- `GameBoy::tick` before its serial step: the clock advances by
`count` and the serial-port state, the serial log and bit 3 of IF are
untouched (the PPU and timer only raise IF bits 0-2). -/
theorem tickPre_fields (count : Nat) (gb : GameBoy) :
    (GameBoy.tickPre count gb).clock_count = gb.clock_count + count ∧
    (GameBoy.tickPre count gb).serial_transfer_started = gb.serial_transfer_started ∧
    (GameBoy.tickPre count gb).serial_control = gb.serial_control ∧
    (GameBoy.tickPre count gb).serial_out_log = gb.serial_out_log ∧
    Nat.testBit (GameBoy.tickPre count gb).interrupt_flag 3 =
      Nat.testBit gb.interrupt_flag 3 := by
  have h0 : ∀ x : Nat, Nat.testBit (x ||| 1 <<< 0) 3 = Nat.testBit x 3 :=
    fun x => testBit_or_of_right_false x _ 3 (by decide)
  have h1 : ∀ x : Nat, Nat.testBit (x ||| 1 <<< 1) 3 = Nat.testBit x 3 :=
    fun x => testBit_or_of_right_false x _ 3 (by decide)
  have h2 : ∀ x : Nat, Nat.testBit (x ||| 1 <<< 2) 3 = Nat.testBit x 3 :=
    fun x => testBit_or_of_right_false x _ 3 (by decide)
  unfold GameBoy.tickPre
  simp only [Ppu.update]
  split_ifs <;>
    exact ⟨rfl, rfl, rfl, rfl, by dsimp only; try simp only [h0, h1, h2]⟩

/-- Bit 3 of `x ||| 1 <<< 3` is set. -/
theorem testBit3_or_bit3 (x : Nat) : Nat.testBit (x ||| 1 <<< 3) 3 = true := by
  rw [Nat.testBit_or]
  simp [show Nat.testBit (8 : Nat) 3 = true from by decide]

/-- Bit 7 of `x &&& 0x7F` is clear. -/
theorem testBit7_and_7F (x : Nat) : Nat.testBit (x &&& 0x7F) 7 = false := by
  rw [Nat.testBit_and]
  simp [show Nat.testBit (127 : Nat) 7 = false from by decide]

/-- `GameBoy::tick` advances `clock_count` by exactly its argument. -/
theorem tick_clock_count (count : Nat) (gb : GameBoy) :
    (GameBoy.tick count gb).clock_count = gb.clock_count + count := by
  obtain ⟨hc, _, _, _, _⟩ := tickPre_fields count gb
  simp only [GameBoy.tick]
  split_ifs <;> exact hc

/-- `GameBoy::tick` never invokes the serial-output callback. -/
theorem tick_serial_out_log (count : Nat) (gb : GameBoy) :
    (GameBoy.tick count gb).serial_out_log = gb.serial_out_log := by
  obtain ⟨_, _, _, hlog, _⟩ := tickPre_fields count gb
  simp only [GameBoy.tick]
  split_ifs <;> exact hlog

/-- C5: while a serial transfer is in progress, the tick whose
post-advance clock satisfies `started + 7 < (clock_count +
SERIAL_OFFSET) >>> 9` (eight periods of the 2^13 Hz serial clock have
elapsed) sets IF bit 3, clears SC bit 7 and returns
`serial_transfer_started` to idle; any earlier tick leaves all three
unchanged. -/
theorem serial_transfer_completion_tick (gb : GameBoy) (count : Nat)
    (h : gb.serial_transfer_started ≠ 0) :
    (gb.serial_transfer_started + 7 < (gb.clock_count + count + SERIAL_OFFSET) >>> 9 →
      Nat.testBit (GameBoy.tick count gb).interrupt_flag 3 = true ∧
      Nat.testBit (GameBoy.tick count gb).serial_control 7 = false ∧
      (GameBoy.tick count gb).serial_transfer_started = 0) ∧
    (¬ gb.serial_transfer_started + 7 < (gb.clock_count + count + SERIAL_OFFSET) >>> 9 →
      (GameBoy.tick count gb).serial_transfer_started = gb.serial_transfer_started ∧
      (GameBoy.tick count gb).serial_control = gb.serial_control ∧
      Nat.testBit (GameBoy.tick count gb).interrupt_flag 3 =
        Nat.testBit gb.interrupt_flag 3) := by
  obtain ⟨hc, hs, hsc, _, hif⟩ := tickPre_fields count gb
  simp only [GameBoy.tick]
  rw [hc, hs]
  constructor
  · intro hcomp
    rw [if_pos ⟨h, hcomp⟩]
    exact ⟨testBit3_or_bit3 _, testBit7_and_7F _, rfl⟩
  · intro hnot
    rw [if_neg (fun hh => hnot hh.2)]
    exact ⟨hs, hsc, hif⟩

/-- Witness for `serial_transfer_completion_tick` at concrete inputs:
`gbSerial` completes on a 4-cycle tick, `gbSerialEarly` does not. -/
theorem serial_transfer_completion_tick_witness :
    (Nat.testBit (GameBoy.tick 4 gbSerial).interrupt_flag 3 = true ∧
      Nat.testBit (GameBoy.tick 4 gbSerial).serial_control 7 = false ∧
      (GameBoy.tick 4 gbSerial).serial_transfer_started = 0) ∧
    ((GameBoy.tick 4 gbSerialEarly).serial_transfer_started =
        gbSerialEarly.serial_transfer_started ∧
      (GameBoy.tick 4 gbSerialEarly).serial_control = gbSerialEarly.serial_control ∧
      Nat.testBit (GameBoy.tick 4 gbSerialEarly).interrupt_flag 3 =
        Nat.testBit gbSerialEarly.interrupt_flag 3) :=
  ⟨(serial_transfer_completion_tick gbSerial 4 (by decide)).1 (by decide),
   (serial_transfer_completion_tick gbSerialEarly 4 (by decide)).2 (by decide)⟩

/-- C4 counterexample: the serial-output callback fires at transfer
initiation, not completion.  Writing 0x81 to SC (register 0x02) on a
machine whose log is empty invokes the callback immediately (the log
grows) while the transfer has only just started (SC bit 7 still set,
`serial_transfer_started` nonzero); and the tick that completes a
pending transfer (setting IF bit 3 and returning the port to idle) does
not invoke it. -/
theorem serial_callback_at_initiation_counterexample :
    (GameBoy.write_io { gb0 with serial_data := 0x42 } 0x02 0x81).serial_out_log = [0x42] ∧
    (GameBoy.write_io { gb0 with serial_data := 0x42 } 0x02 0x81).serial_transfer_started ≠ 0 ∧
    Nat.testBit (GameBoy.write_io { gb0 with serial_data := 0x42 } 0x02 0x81).serial_control 7
      = true ∧
    Nat.testBit (GameBoy.tick 4 gbSerial).interrupt_flag 3 = true ∧
    (GameBoy.tick 4 gbSerial).serial_transfer_started = 0 ∧
    (GameBoy.tick 4 gbSerial).serial_out_log = [] := by
  refine ⟨rfl, by decide, by decide, by decide, by decide, rfl⟩

/-- C4 amended: the serial-output callback is invoked exactly at
transfer initiation — an SC write (register 0x02) whose value has bits
7 and 0 both set appends the current `serial_data` byte to the log, any
other SC write leaves it unchanged — and a tick (including the one
completing a transfer) never invokes it. -/
theorem serial_callback_on_initiation (gb : GameBoy) (value count : Nat) :
    (GameBoy.write_io gb 0x02 value).serial_out_log =
      (if value &&& 0x81 = 0x81 then gb.serial_out_log ++ [gb.serial_data]
       else gb.serial_out_log) ∧
    (GameBoy.tick count gb).serial_out_log = gb.serial_out_log := by
  have harm : writeIoArm 0x02 = WriteIoArm.serialControlArm := rfl
  constructor
  · unfold GameBoy.write_io
    rw [harm]
    dsimp only
    split_ifs <;> rfl
  · exact tick_serial_out_log count gb

/-- `GameBoy::write_io` never touches `clock_count`. -/
theorem write_io_clock_count (gb : GameBoy) (address value : Nat) :
    (GameBoy.write_io gb address value).clock_count = gb.clock_count := by
  unfold GameBoy.write_io
  cases writeIoArm address <;>
    first
    | rfl
    | (dsimp only; split_ifs <;> rfl)

set_option maxHeartbeats 4000000 in
/-- `GameBoy::write` never touches `clock_count`. -/
theorem write_clock_count (gb gb' : GameBoy) (address value : Nat)
    (h : GameBoy.write gb address value = some gb') :
    gb'.clock_count = gb.clock_count := by
  unfold GameBoy.write GameBoy.writeDecoded Ppu.write_vram Ppu.write_oam at h
  split_ifs at h <;> injection h with h2 <;> rw [← h2] <;>
    first
    | rfl
    | exact write_io_clock_count gb _ value

/-- C1: every bus access performed by the interpreter advances
`clock_count` by exactly 4 T-cycles, so over any sequence of bus
operations the clock is monotone and advances by 4 per access. -/
theorem clock_advance_per_bus_access (ops : List BusOp) (gb gb' : GameBoy)
    (h : runBusOps ops gb = some gb') :
    gb'.clock_count = gb.clock_count + 4 * ops.length ∧
    gb.clock_count ≤ gb'.clock_count := by
  suffices hs : gb'.clock_count = gb.clock_count + 4 * ops.length by
    exact ⟨hs, by omega⟩
  induction ops generalizing gb with
  | nil =>
    simp only [runBusOps, Option.some.injEq] at h
    rw [← h]
    simp
  | cons op rest ih =>
    simp only [runBusOps] at h
    cases hb : busStep op gb with
    | none => rw [hb] at h; simp at h
    | some gb1 =>
      rw [hb] at h
      simp only [Option.some_bind] at h
      have h1 : gb1.clock_count = gb.clock_count + 4 := by
        cases op with
        | read address =>
          simp only [busStep] at hb
          cases hr : GameBoy.read gb address with
          | none => rw [hr] at hb; simp at hb
          | some v =>
            rw [hr] at hb
            simp only [Option.map_some', Option.some.injEq] at hb
            rw [← hb]
            exact tick_clock_count 4 gb
        | write address value =>
          simp only [busStep] at hb
          cases hw : GameBoy.write gb address value with
          | none => rw [hw] at hb; simp at hb
          | some gb2 =>
            rw [hw] at hb
            simp only [Option.map_some', Option.some.injEq] at hb
            rw [← hb, tick_clock_count 4 gb2, write_clock_count gb gb2 address value hw]
      have h2 := ih gb1 h
      rw [h2, h1]
      simp only [List.length_cons]
      omega

/-- Witness for `clock_advance_per_bus_access`: one concrete read
advances the clock of `gb0` by exactly 4. -/
theorem clock_advance_per_bus_access_witness :
    (GameBoy.tick 4 gb0).clock_count =
      gb0.clock_count + 4 * [BusOp.read 0xC000].length ∧
    gb0.clock_count ≤ (GameBoy.tick 4 gb0).clock_count :=
  clock_advance_per_bus_access [BusOp.read 0xC000] gb0 (GameBoy.tick 4 gb0) rfl

/-- C2: ECHO mirroring and the unusable range.  For any state, a read
or write at 0xE000-0xFDFF behaves exactly as at the address 0x2000
lower; a read at 0xFEA0-0xFEFF yields 0xFF and a write there leaves the
machine unchanged. -/
theorem echo_mirror_and_unusable (gb : GameBoy) (value address : Nat) :
    (0xE000 ≤ address ∧ address ≤ 0xFDFF →
      GameBoy.read gb address = GameBoy.read gb (address - 0x2000) ∧
      GameBoy.write gb address value = GameBoy.write gb (address - 0x2000) value) ∧
    (0xFEA0 ≤ address ∧ address ≤ 0xFEFF →
      GameBoy.read gb address = some 0xFF ∧
      GameBoy.write gb address value = some gb) := by
  constructor
  · intro h
    have h1 : rewriteAddr address = address - 0x2000 := by
      unfold rewriteAddr; rw [if_pos h]
    have h2 : rewriteAddr (address - 0x2000) = address - 0x2000 := by
      unfold rewriteAddr; rw [if_neg (by omega)]
    constructor
    · unfold GameBoy.read
      rw [if_neg (fun hh => absurd hh.2 (by omega)),
        if_neg (fun hh => absurd hh.2 (by omega)), h1, h2]
    · unfold GameBoy.write
      rw [h1, h2]
  · intro h
    have h3 : rewriteAddr address = address := by
      unfold rewriteAddr; rw [if_neg (by omega)]
    constructor
    · unfold GameBoy.read
      rw [if_neg (fun hh => absurd hh.2 (by omega)), h3]
      unfold GameBoy.readDecoded
      rw [if_neg (by omega), if_neg (by omega), if_neg (by omega), if_neg (by omega),
        if_neg (by omega), if_neg (by omega), if_pos (by omega)]
    · unfold GameBoy.write
      rw [h3]
      unfold GameBoy.writeDecoded
      rw [if_neg (by omega), if_neg (by omega), if_neg (by omega), if_neg (by omega),
        if_neg (by omega), if_neg (by omega), if_pos (by omega)]

/-- Witness for `echo_mirror_and_unusable` at `gb0`, address 0xE123
(mirroring 0xC123) and address 0xFEA0. -/
theorem echo_mirror_and_unusable_witness :
    (GameBoy.read gb0 0xE123 = GameBoy.read gb0 0xC123 ∧
      GameBoy.write gb0 0xE123 5 = GameBoy.write gb0 0xC123 5) ∧
    (GameBoy.read gb0 0xFEA0 = some 0xFF ∧
      GameBoy.write gb0 0xFEA0 5 = some gb0) :=
  ⟨(echo_mirror_and_unusable gb0 5 0xE123).1 (by decide),
   (echo_mirror_and_unusable gb0 5 0xFEA0).2 (by decide)⟩

/-- C8: powering on without a boot ROM yields the post-boot
fingerprint: clock 23,440,324, boot overlay off, and the documented CPU
register file with interrupts disabled and the CPU running. -/
theorem power_on_without_boot_fingerprint (cartridge : Cartridge) :
    (GameBoy.new none cartridge).clock_count = 23440324 ∧
    (GameBoy.new none cartridge).boot_rom_active = false ∧
    (GameBoy.new none cartridge).cpu =
      { a := 0x01, f := 0xB0, b := 0x00, c := 0x13, d := 0x00, e := 0xD8,
        h := 0x01, l := 0x4D, sp := 0xFFFE, pc := 0x0100,
        ime := ImeState.disabled, state := CpuState.running } :=
  ⟨rfl, rfl, rfl⟩

/-- `SoundController::read` succeeds on every register index the I/O
dispatch routes to it. -/
theorem sound_read_isSome (s : SoundController) (address : Nat)
    (h : (0x10 ≤ address ∧ address ≤ 0x14) ∨ (0x16 ≤ address ∧ address ≤ 0x1E)
      ∨ (0x20 ≤ address ∧ address ≤ 0x26) ∨ (0x30 ≤ address ∧ address ≤ 0x3F)) :
    (SoundController.read s address).isSome = true := by
  rcases h with ⟨h1, h2⟩ | ⟨h1, h2⟩ | ⟨h1, h2⟩ | ⟨h1, h2⟩ <;>
    interval_cases address <;> rfl

/-- `GameBoy::read_io` succeeds on every register index 0x00-0xFF. -/
theorem read_io_isSome (gb : GameBoy) (address : Nat) (h : address < 256) :
    (GameBoy.read_io gb address).isSome = true := by
  interval_cases address <;> rfl

/-- After the ECHO rewrite no address lies in the ECHO range. -/
theorem rewriteAddr_not_echo (address : Nat) :
    ¬(0xE000 ≤ rewriteAddr address ∧ rewriteAddr address ≤ 0xFDFF) := by
  unfold rewriteAddr
  split_ifs <;> omega

/-- `GameBoy::readDecoded` succeeds off the ECHO range. -/
theorem readDecoded_isSome (gb : GameBoy) (address : Nat)
    (h : ¬(0xE000 ≤ address ∧ address ≤ 0xFDFF)) :
    (gb.readDecoded address).isSome = true := by
  unfold GameBoy.readDecoded
  by_cases c1 : address ≤ 0x7FFF
  · rw [if_pos c1]; rfl
  · rw [if_neg c1]
    by_cases c2 : address ≤ 0x9FFF
    · rw [if_pos c2]; rfl
    · rw [if_neg c2]
      by_cases c3 : address ≤ 0xBFFF
      · rw [if_pos c3]; rfl
      · rw [if_neg c3]
        by_cases c4 : address ≤ 0xDFFF
        · rw [if_pos c4]; rfl
        · rw [if_neg c4, if_neg (by omega)]
          by_cases c6 : address ≤ 0xFE9F
          · rw [if_pos c6]; rfl
          · rw [if_neg c6]
            by_cases c7 : address ≤ 0xFEFF
            · rw [if_pos c7]; rfl
            · rw [if_neg c7]
              by_cases c8 : address ≤ 0xFF7F
              · rw [if_pos c8]
                exact read_io_isSome gb _ (Nat.mod_lt _ (by omega))
              · rw [if_neg c8]
                by_cases c9 : address ≤ 0xFFFE
                · rw [if_pos c9]; rfl
                · rw [if_neg c9]
                  exact read_io_isSome gb _ (Nat.mod_lt _ (by omega))

/-- `GameBoy::writeDecoded` succeeds off the ECHO range. -/
theorem writeDecoded_isSome (gb : GameBoy) (address value : Nat)
    (h : ¬(0xE000 ≤ address ∧ address ≤ 0xFDFF)) :
    (gb.writeDecoded address value).isSome = true := by
  unfold GameBoy.writeDecoded
  by_cases c1 : address ≤ 0x7FFF
  · rw [if_pos c1]; rfl
  · rw [if_neg c1]
    by_cases c2 : address ≤ 0x9FFF
    · rw [if_pos c2]; rfl
    · rw [if_neg c2]
      by_cases c3 : address ≤ 0xBFFF
      · rw [if_pos c3]; rfl
      · rw [if_neg c3]
        by_cases c4 : address ≤ 0xDFFF
        · rw [if_pos c4]; rfl
        · rw [if_neg c4, if_neg (by omega)]
          by_cases c6 : address ≤ 0xFE9F
          · rw [if_pos c6]; rfl
          · rw [if_neg c6]
            by_cases c7 : address ≤ 0xFEFF
            · rw [if_pos c7]; rfl
            · rw [if_neg c7]
              by_cases c8 : address ≤ 0xFF7F
              · rw [if_pos c8]; rfl
              · rw [if_neg c8]
                by_cases c9 : address ≤ 0xFFFE
                · rw [if_pos c9]; rfl
                · rw [if_neg c9]; rfl

/-- C9: for every 16-bit address and every state whose boot overlay is
consistent (an active overlay has a boot ROM), `GameBoy::read` and
`GameBoy::write` never execute their `unreachable!()` ECHO arms (nor
any other panic): the address rewrite makes the ECHO range impossible,
so the decode always produces a value. -/
theorem bus_decode_never_hits_echo_arm (gb : GameBoy) (address value : Nat)
    (haddr : address ≤ 0xFFFF)
    (hboot : gb.boot_rom_active = true → gb.boot_rom.isSome = true) :
    (GameBoy.read gb address).isSome = true ∧
    (GameBoy.write gb address value).isSome = true := by
  constructor
  · unfold GameBoy.read
    split_ifs with hb
    · cases hrom : gb.boot_rom with
      | none =>
        have hs := hboot hb.1
        rw [hrom] at hs
        simp at hs
      | some boot_rom => simp [hrom]
    · exact readDecoded_isSome gb _ (rewriteAddr_not_echo address)
  · exact writeDecoded_isSome gb _ value (rewriteAddr_not_echo address)

/-- Witness for `bus_decode_never_hits_echo_arm` at `gb0` and an
address inside the ECHO range. -/
theorem bus_decode_never_hits_echo_arm_witness :
    (GameBoy.read gb0 0xE000).isSome = true ∧
    (GameBoy.write gb0 0xE000 1).isSome = true :=
  bus_decode_never_hits_echo_arm gb0 0xE000 1 (by decide) (by decide)

/-- C10: a bus write to 0xFF50 with bit 0 set while the boot overlay is
active clears `boot_rom_active` and forces the program counter to
0x0100; any other write to 0xFF50 (bit 0 clear, or overlay already
inactive) changes nothing at all. -/
theorem boot_rom_disable_via_ff50 (gb : GameBoy) (value : Nat) :
    (gb.boot_rom_active = true ∧ value &&& 0b1 ≠ 0 →
      GameBoy.write gb 0xFF50 value =
        some { gb with boot_rom_active := false, cpu := { gb.cpu with pc := 0x100 } }) ∧
    (¬(gb.boot_rom_active = true ∧ value &&& 0b1 ≠ 0) →
      GameBoy.write gb 0xFF50 value = some gb) := by
  have hred : GameBoy.write gb 0xFF50 value =
      some (if gb.boot_rom_active = true ∧ value &&& 0b1 ≠ 0 then
        { gb with boot_rom_active := false, cpu := { gb.cpu with pc := 0x100 } }
      else gb) := rfl
  constructor
  · intro h
    rw [hred, if_pos h]
  · intro h
    rw [hred, if_neg h]

/-- Witness for `boot_rom_disable_via_ff50`: with a boot ROM loaded the
write lands (boot overlay off, PC at 0x0100); without one it is a
no-op. -/
theorem boot_rom_disable_via_ff50_witness :
    GameBoy.write gbBoot 0xFF50 1 =
      some { gbBoot with boot_rom_active := false,
                         cpu := { gbBoot.cpu with pc := 0x100 } } ∧
    GameBoy.write gb0 0xFF50 1 = some gb0 :=
  ⟨(boot_rom_disable_via_ff50 gbBoot 1).1 (by decide),
   (boot_rom_disable_via_ff50 gb0 1).2 (by decide)⟩

/-- The register indices of NR10-NR52 as the I/O dispatch addresses
them (0x10-0x14, 0x16-0x19, 0x1A-0x1E, 0x20-0x23, 0x24-0x26). -/
def soundRegAddrs : List Nat :=
  [0x10, 0x11, 0x12, 0x13, 0x14, 0x16, 0x17, 0x18, 0x19, 0x1A, 0x1B, 0x1C,
   0x1D, 0x1E, 0x20, 0x21, 0x22, 0x23, 0x24, 0x25, 0x26]

/-- C6: writing any value with bit 7 clear to NR52 replaces the whole
APU state with `SoundController::default()`: master power is off, every
register NR10-NR52 reads back as zero, and every channel-enable latch
is false. -/
theorem apu_power_off_resets (clock_count value : Nat) (s : SoundController)
    (h : value &&& 0x80 = 0) :
    SoundController.write clock_count 0x26 value s = SoundController.default ∧
    (soundRegAddrs.all fun a =>
      SoundController.read (SoundController.write clock_count 0x26 value s) a
        == some 0) = true ∧
    (SoundController.write clock_count 0x26 value s).on_flag = false ∧
    (SoundController.write clock_count 0x26 value s).ch1_channel_enable = false ∧
    (SoundController.write clock_count 0x26 value s).ch2_channel_enable = false ∧
    (SoundController.write clock_count 0x26 value s).ch3_channel_enable = false := by
  have hw : SoundController.write clock_count 0x26 value s = SoundController.default := by
    unfold SoundController.write
    norm_num
    exact fun hc => absurd h hc
  refine ⟨hw, ?_, ?_, ?_, ?_, ?_⟩ <;> rw [hw] <;> rfl

/-- Witness for `apu_power_off_resets` at value 0 on the default
state. -/
theorem apu_power_off_resets_witness :
    SoundController.write 0 0x26 0 SoundController.default = SoundController.default ∧
    (soundRegAddrs.all fun a =>
      SoundController.read (SoundController.write 0 0x26 0 SoundController.default) a
        == some 0) = true ∧
    (SoundController.write 0 0x26 0 SoundController.default).on_flag = false ∧
    (SoundController.write 0 0x26 0 SoundController.default).ch1_channel_enable = false ∧
    (SoundController.write 0 0x26 0 SoundController.default).ch2_channel_enable = false ∧
    (SoundController.write 0 0x26 0 SoundController.default).ch3_channel_enable = false :=
  apu_power_off_resets 0 0 SoundController.default (by decide)

/-- A concrete APU state one T-cycle before a 128 Hz sweep tick
(clock 16384), with channel 1 enabled, sweep enabled, sweep period 1,
shift 0, and shadow frequency 2047, so that the sweep recalculation on
that tick overflows (2047 + 2047 = 4094 ≥ 2048). -/
def apuSweepOverflow : SoundController :=
  { SoundController.default with
    on_flag := true,
    ch1_channel_enable := true,
    ch1_sweep_enabled := true,
    ch1_sweep_timer := 1,
    nr10 := 0x10,
    ch1_shadow_freq := 2047,
    ch1_frequency_timer := 100,
    ch2_frequency_timer := 100,
    ch3_frequency_timer := 100,
    last_clock := 16384 }

/-- C3 (behaviour at the failing input): clock 16384 is a sweep tick;
the recalculation there produces frequency 4094 ≥ 2048, and the source
reacts by clearing only `ch1_sweep_enabled` — the channel-1
channel-enable latch stays true, so the channel does not disable on
sweep overflow. -/
theorem sweep_overflow_leaves_channel_enabled :
    (16384 + CLOCK_SPEED / 256) % (CLOCK_SPEED / 128) = 0 ∧
    (apuSweepOverflow.calculate_frequency 0 false).1 = 4094 ∧
    2048 ≤ (apuSweepOverflow.calculate_frequency 0 false).1 ∧
    (SoundController.update 16385 apuSweepOverflow).ch1_sweep_enabled = false ∧
    (SoundController.update 16385 apuSweepOverflow).ch1_channel_enable = true := by
  refine ⟨by decide, by decide, by decide, ?_, ?_⟩ <;> decide

/-- C7 (behaviour at the failing input): a trigger write (0x80) to
NR14 on the default APU enables the channel, reloads length to 64,
reloads the frequency timer to (2048 - freq) * 4 = 8192 and resets the
duty position — but copies the frequency TIMER value into
`ch1_shadow_freq` (8192), not the 11-bit frequency (0 after this
write). -/
theorem trigger_copies_timer_into_shadow :
    (SoundController.write 0 0x14 0x80 SoundController.default).ch1_channel_enable
      = true ∧
    (SoundController.write 0 0x14 0x80 SoundController.default).ch1_length_timer = 64 ∧
    (SoundController.write 0 0x14 0x80 SoundController.default).ch1_frequency_timer
      = 8192 ∧
    (SoundController.write 0 0x14 0x80 SoundController.default).ch1_wave_duty_position
      = 0 ∧
    (SoundController.write 0 0x14 0x80 SoundController.default).ch1_shadow_freq
      = 8192 ∧
    (((SoundController.write 0 0x14 0x80 SoundController.default).nr14 <<< 8 |||
      (SoundController.write 0 0x14 0x80 SoundController.default).nr13) &&& 0x7FF)
      = 0 := by
  refine ⟨?_, ?_, ?_, ?_, ?_, ?_⟩ <;> decide
